import Mathlib

/-!
Shallow embedding of the session-supervisor core of `src/index.js`
(class `MinecraftDiscordBot`): the connection lifecycle state machine with
retry/backoff, the auth bridge that scrapes a device code from diagnostic
text, and the safety monitor (health, player proximity, block breaks).

Modelling conventions:
* JavaScript numbers used as health values and coordinates are embedded as
  rationals; timestamps (`Date.now()` milliseconds) as naturals.  Event
  times are assumed monotone, so `now - last` is truncated subtraction.
* `this.minecraftBot !== null` is the flag `hasBot`; the objects
  `lastAuthUser` and `authMessage` are embedded by their presence flags,
  since the supervisor logic only branches on their truthiness.
* Euclidean distance comparisons `dist <= r` (with `r ≥ 0`) are embedded
  as `distSq ≤ r * r`, which is equivalent and stays in exact arithmetic.
* Outbound effects (Discord alerts, mineflayer calls, timers) are
  represented as an explicit list of `Action` values returned next to the
  updated state; a scheduled timer body is a separate function applied to
  the state at firing time.
-/

namespace DonutSecurity

/-- Safety configuration, `this.safetyConfig` from the constructor. -/
structure SafetyConfig where
  enabled : Bool
  proximityRadius : ℚ
  minHealth : ℚ
  alertCooldown : Nat
  autoDisconnectOnThreat : Bool
  autoDisconnectHealth : ℚ
  blockBreakRadius : ℚ
  trackInventory : Bool
  logAllEvents : Bool
deriving DecidableEq, Repr

/-- Constructor defaults of `this.safetyConfig`. -/
def defaultSafetyConfig : SafetyConfig :=
  { enabled := true
    proximityRadius := 50
    minHealth := 10
    alertCooldown := 30000
    autoDisconnectOnThreat := true
    autoDisconnectHealth := 6
    blockBreakRadius := 10
    trackInventory := false
    logAllEvents := true }

/-- A point in the world, components embedded as rationals. -/
structure Pos3 where
  x : ℚ
  y : ℚ
  z : ℚ
deriving DecidableEq, Repr

/-- Squared Euclidean distance; `p.distanceTo q ≤ r` is embedded as
`distSq p q ≤ r * r`. -/
def distSq (p q : Pos3) : ℚ :=
  (p.x - q.x) * (p.x - q.x) + (p.y - q.y) * (p.y - q.y) + (p.z - q.z) * (p.z - q.z)

/-- One record of `this.blockBreakLog` (the source stores an ISO timestamp
and the rounded distance; embedded as the millisecond clock and the exact
squared distance). -/
structure BlockBreakEntry where
  timestamp : Nat
  block : String
  position : Pos3
  distanceSq : ℚ
deriving DecidableEq, Repr

/-- One other player as seen in `this.minecraftBot.players`: a username and
an optional entity position (absent when `player.entity` is missing). -/
structure PlayerEntry where
  username : String
  pos : Option Pos3
deriving DecidableEq, Repr

/-- The mutable fields of `MinecraftDiscordBot` that the supervisor logic
reads and writes.  Display-only fields (current world name, cached
coordinates, scoreboard state) are omitted. -/
structure BotState where
  isConnected : Bool
  isConnecting : Bool
  shouldJoin : Bool
  hasBot : Bool
  reconnectAttempts : Nat
  maxReconnectAttempts : Nat
  reconnectDelay : Nat
  authUrl : Option String
  userCode : Option String
  authMessageSent : Bool
  authMessage : Bool
  lastAuthUser : Bool
  currentHealth : ℚ
  lastHealth : ℚ
  lastHealthAlert : Nat
  lastProximityAlert : Nat
  safetyConfig : SafetyConfig
  trustedPlayers : List String
  blockedPlayers : List String
  blockBreakLog : List BlockBreakEntry
  playerActivityLog : List (String × ℚ)
deriving DecidableEq, Repr

/-- Outbound effects of one reaction: Discord alerts, mineflayer commands
and timer registrations. -/
inductive Action where
  | criticalHealthAlert (damage health : ℚ)
  | damageAlert (damage : ℚ)
  | lowHealthAlert (health : ℚ)
  | threatAlert (threats : List String)
  | proximityAlert (nearby : List String)
  | blockBreakAlert (block : String)
  | scheduleGraceDisconnect (delayMs : Nat)
  | quit
  | scheduleConnect (delayMs : Nat)
  | scheduleAuthRetry (delayMs : Nat)
  | createSession
deriving DecidableEq, Repr

/-- Low-health warning tail of `checkHealth` (the last block of the
function, reached whenever the critical branch did not return). -/
def lowHealthCheck (s : BotState) (now : Nat) (acc : List Action) :
    BotState × List Action :=
  if s.currentHealth ≤ s.safetyConfig.minHealth ∧
      now - s.lastHealthAlert > s.safetyConfig.alertCooldown then
    ({ s with lastHealthAlert := now }, acc ++ [.lowHealthAlert s.currentHealth])
  else
    (s, acc)

/-- Embeds `checkHealth()`.  `botHealth` is `this.minecraftBot.health` and
`now` is `Date.now()`.  The guard `!this.minecraftBot.health` is falsy
exactly when the health value is `0`, hence the `botHealth = 0` disjunct.
The critical auto-disconnect branch is nested inside the
`currentHealth < lastHealth` damage test, as in the source. -/
def checkHealth (s : BotState) (botHealth : ℚ) (now : Nat) :
    BotState × List Action :=
  if ¬s.safetyConfig.enabled ∨ ¬s.hasBot ∨ botHealth = 0 then (s, [])
  else
    let s1 := { s with lastHealth := s.currentHealth, currentHealth := botHealth }
    if s1.currentHealth < s1.lastHealth then
      let damage := s1.lastHealth - s1.currentHealth
      if s1.currentHealth ≤ s1.safetyConfig.autoDisconnectHealth then
        (s1, [.criticalHealthAlert damage s1.currentHealth, .scheduleGraceDisconnect 500])
      else
        lowHealthCheck s1 now [.damageAlert damage]
    else
      lowHealthCheck s1 now []

/-- Nearby-player scan of `checkPlayerProximity`: every other named entry
with a position whose distance to the bot is at most `radius`, paired with
its squared distance (the source keeps the rounded distance; only order
comparisons are made with it). -/
def proximityEntries (myPos : Pos3) (radius : ℚ) (selfName : String)
    (players : List PlayerEntry) : List (String × ℚ) :=
  players.filterMap fun p =>
    if p.username = selfName then none
    else
      match p.pos with
      | none => none
      | some q =>
          let d2 := distSq myPos q
          if d2 ≤ radius * radius then some (p.username, d2) else none

/-- Embeds `checkPlayerProximity()`.  `selfName` is the bot username,
`myPos` is `this.minecraftBot.entity.position`, `players` the entries of
`this.minecraftBot.players`.  A nearby player is a threat when it is not
trusted and within 20 blocks (the hardcoded `distance <= 20` test, embedded
as `d2 ≤ 400`). -/
def checkPlayerProximity (s : BotState) (now : Nat) (selfName : String)
    (myPos : Pos3) (players : List PlayerEntry) : BotState × List Action :=
  if ¬s.safetyConfig.enabled ∨ ¬s.hasBot then (s, [])
  else if now - s.lastProximityAlert < s.safetyConfig.alertCooldown then (s, [])
  else
    let nearby := proximityEntries myPos s.safetyConfig.proximityRadius selfName players
    let threats := nearby.filter fun ud =>
      !(s.trustedPlayers.contains ud.1) && decide (ud.2 ≤ 400)
    let s1 :=
      if s.safetyConfig.logAllEvents then
        { s with playerActivityLog := s.playerActivityLog ++ nearby }
      else s
    if nearby = [] then (s1, [])
    else
      let s2 := { s1 with lastProximityAlert := now }
      if s2.safetyConfig.autoDisconnectOnThreat && !threats.isEmpty then
        (s2, [.threatAlert (threats.map Prod.fst), .scheduleGraceDisconnect 1000])
      else
        (s2, [.proximityAlert (nearby.map Prod.fst)])

/-- Body of the grace timer scheduled by both safety checks:
`this.shouldJoin = false; if (this.minecraftBot) this.minecraftBot.quit();`
(the bot field itself is only nulled later, by the `end` handler). -/
def graceDisconnect (s : BotState) : BotState × List Action :=
  ({ s with shouldJoin := false }, if s.hasBot then [Action.quit] else [])

/-- Capped linear backoff of `attemptReconnect`:
`Math.min(this.reconnectDelay * this.reconnectAttempts, 60000)`. -/
def backoffDelay (base n : Nat) : Nat :=
  min (base * n) 60000

/-- Embeds `attemptReconnect()`.  The emitted `scheduleConnect` timer fires
`connectToMinecraft` after the computed delay, guarded again at fire time. -/
def attemptReconnect (s : BotState) : BotState × List Action :=
  if ¬s.shouldJoin then (s, [])
  else if s.isConnecting then (s, [])
  else if s.reconnectAttempts ≥ s.maxReconnectAttempts then
    ({ s with shouldJoin := false }, [])
  else
    let s1 := { s with reconnectAttempts := s.reconnectAttempts + 1 }
    (s1, [.scheduleConnect (backoffDelay s1.reconnectDelay s1.reconnectAttempts)])

/-- Embeds `connectToMinecraft()`: a no-op while `isConnecting`, otherwise
quits any stale client and creates a fresh mineflayer session. -/
def connectToMinecraft (s : BotState) : BotState × List Action :=
  if s.isConnecting then (s, [])
  else
    let quitActs : List Action := if s.hasBot then [Action.quit] else []
    ({ s with isConnecting := true, hasBot := true }, quitActs ++ [Action.createSession])

/-- Embeds the `POST /connect` route handler (the `/connect` slash command
body is identical): refuse when already connected, otherwise set the join
intent, reset the attempt counter and call `connectToMinecraft`. -/
def postConnect (s : BotState) : BotState × List Action :=
  if s.isConnected then (s, [])
  else connectToMinecraft { s with shouldJoin := true, reconnectAttempts := 0 }

/-- Embeds the `POST /disconnect` route handler: clear the join intent,
reset the attempt counter and quit any live client.  Auth fields are not
touched. -/
def postDisconnect (s : BotState) : BotState × List Action :=
  ({ s with shouldJoin := false, reconnectAttempts := 0, hasBot := false },
   if s.hasBot then [Action.quit] else [])

/-- Embeds `handleDisconnectCommand`: replies with an error and changes
nothing when not connected; otherwise behaves like `POST /disconnect`. -/
def handleDisconnectCommand (s : BotState) : BotState × List Action :=
  if ¬s.isConnected then (s, [])
  else
    ({ s with shouldJoin := false, reconnectAttempts := 0, hasBot := false },
     if s.hasBot then [Action.quit] else [])

/-- Embeds the `end` event handler.  `wasAuthenticating` is read from the
auth fields before anything is cleared; the authenticating branch arms a
5-second retry timer whose body is `authRetryFire`. -/
def endHandler (s : BotState) : BotState × List Action :=
  let wasAuthenticating := s.authUrl.isSome || s.userCode.isSome
  let s1 := { s with isConnected := false, isConnecting := false, hasBot := false }
  if s1.shouldJoin && !wasAuthenticating then attemptReconnect s1
  else if wasAuthenticating then (s1, [.scheduleAuthRetry 5000])
  else (s1, [])

/-- Body of the timer armed by the authenticating branch of the `end`
handler: `if (this.shouldJoin && !this.isConnected) this.attemptReconnect()`. -/
def authRetryFire (s : BotState) : BotState × List Action :=
  if s.shouldJoin && !s.isConnected then attemptReconnect s else (s, [])

/-- Embeds the `error` event handler (the bot field is not nulled there). -/
def errorHandler (s : BotState) : BotState × List Action :=
  let s1 := { s with isConnected := false, isConnecting := false }
  if s1.shouldJoin then attemptReconnect s1 else (s1, [])

/-- Embeds the `kicked` event handler. -/
def kickedHandler (s : BotState) : BotState × List Action :=
  let s1 := { s with isConnected := false, isConnecting := false, hasBot := false }
  if s1.shouldJoin then attemptReconnect s1 else (s1, [])

/-- Embeds the `login` event handler: keeps `isConnecting` and clears the
scraped auth fields and the sent flag unconditionally, but the pending
Discord auth message is nulled only inside the `try` block, after the
external `authMessage.delete()` call succeeded; the catch path leaves the
field set.  `deleteOk` is the outcome of that external call. -/
def loginHandler (s : BotState) (deleteOk : Bool) : BotState :=
  { s with isConnecting := true, authUrl := none, userCode := none,
           authMessageSent := false,
           authMessage := s.authMessage && !deleteOk }

/-- Character class `[A-Z0-9]` under the `i` flag: ASCII letters and
digits. -/
def isCodeChar (c : Char) : Bool :=
  c.isAlpha || c.isDigit

/-- Case-insensitive match of a literal pattern fragment against a prefix
of the text, returning the rest of the text on success. -/
def stripLitCI : List Char → List Char → Option (List Char)
  | [], rest => some rest
  | _ :: _, [] => none
  | l :: ls, c :: cs => if l.toLower = c.toLower then stripLitCI ls cs else none

/-- First match of the regex `lit([A-Z0-9]+)` (case-insensitive) in the
text, returning the captured group: scan left to right for a position
where the literal matches and at least one code character follows, exactly
as the JavaScript regex engine does. -/
def findAfterLit (lit : List Char) : List Char → Option String
  | [] => none
  | c :: cs =>
    match stripLitCI lit (c :: cs) with
    | some rest =>
        let code := rest.takeWhile isCodeChar
        if code.isEmpty then findAfterLit lit cs else some (String.mk code)
    | none => findAfterLit lit cs

/-- The literals of the four `codePatterns` regexes of
`extractAuthDetails`, in source order. -/
def codeLits : List (List Char) :=
  ["code ".data, "use the code ".data, "enter code: ".data, "code: ".data]

/-- The `for (const pattern of codePatterns)` loop: the first pattern that
matches wins. -/
def findAuthCode (msg : String) : Option String :=
  (codeLits.filterMap fun lit => findAfterLit lit msg.data).head?

/-- An auth challenge as delivered to Discord: the scraped code and the
link it is composed into. -/
structure AuthDelivery where
  code : String
  url : String
deriving DecidableEq, Repr

/-- The fixed link used by `extractAuthDetails`, with the code composed in
as the `otc` query parameter. -/
def authUrlFor (code : String) : String :=
  "https://microsoft.com/link?otc=" ++ code

/-- Embeds `extractAuthDetails(message)`.  A delivery (editing the pending
Discord auth message, or the channel fallback) happens exactly when a code
was scraped and both `lastAuthUser` and `authMessage` are present; a code
without that Discord context is only logged.  The function mutates none of
the supervisor state. -/
def extractAuthDetails (s : BotState) (msg : String) : Option AuthDelivery :=
  match findAuthCode msg with
  | none => none
  | some c =>
      if s.lastAuthUser && s.authMessage then some ⟨c, authUrlFor c⟩ else none

/-- The push-then-shift of `monitorBlockBreak`: append the entry and drop
the oldest one when the log exceeds 50 entries. -/
def pushBounded (log : List BlockBreakEntry) (e : BlockBreakEntry) :
    List BlockBreakEntry :=
  if (log ++ [e]).length > 50 then (log ++ [e]).tail else log ++ [e]

/-- Embeds `monitorBlockBreak(oldBlock, newBlock)`: record breaks within
`blockBreakRadius` of the bot in the bounded log and alert when the break
is within 5 blocks (`d2 ≤ 25`). -/
def monitorBlockBreak (s : BotState) (now : Nat) (botPos : Pos3)
    (blockName : String) (blockPos : Pos3) : BotState × List Action :=
  if ¬s.safetyConfig.enabled ∨ ¬s.hasBot then (s, [])
  else
    let d2 := distSq botPos blockPos
    if d2 ≤ s.safetyConfig.blockBreakRadius * s.safetyConfig.blockBreakRadius then
      let s1 := { s with blockBreakLog := pushBounded s.blockBreakLog ⟨now, blockName, blockPos, d2⟩ }
      if d2 ≤ 25 then (s1, [.blockBreakAlert blockName]) else (s1, [])
    else
      (s, [])

/-- A connected steady state right after `spawn`: constructor defaults with
the session flags set the way the `spawn` handler leaves them. -/
def connState : BotState :=
  { isConnected := true
    isConnecting := false
    shouldJoin := true
    hasBot := true
    reconnectAttempts := 0
    maxReconnectAttempts := 10000
    reconnectDelay := 15000
    authUrl := none
    userCode := none
    authMessageSent := false
    authMessage := false
    lastAuthUser := true
    currentHealth := 20
    lastHealth := 20
    lastHealthAlert := 0
    lastProximityAlert := 0
    safetyConfig := defaultSafetyConfig
    trustedPlayers := []
    blockedPlayers := []
    blockBreakLog := []
    playerActivityLog := [] }

/-- True of the actions that start an underlying connection attempt. -/
def schedulesConnect : Action → Bool
  | .scheduleConnect _ => true
  | _ => false

/-- Three consecutive proximity checks (movement events) against the same
player list at three event times, with the resulting actions concatenated. -/
def proximityTrace3 (s : BotState) (t0 t1 t2 : Nat) (selfName : String)
    (myPos : Pos3) (players : List PlayerEntry) : BotState × List Action :=
  let r0 := checkPlayerProximity s t0 selfName myPos players
  let r1 := checkPlayerProximity r0.1 t1 selfName myPos players
  let r2 := checkPlayerProximity r1.1 t2 selfName myPos players
  (r2.1, r0.2 ++ r1.2 ++ r2.2)

/-- A reconnecting state: a connect attempt is structurally in flight
(`isConnecting`) after three failed attempts, not yet connected. -/
def inflightState : BotState :=
  { connState with isConnected := false, isConnecting := true, reconnectAttempts := 3 }

/-- A state in the authenticating phase with a pending auth challenge: the
`auth_pending` event stored a verification link and code, and the Discord
auth message is live. -/
def pendingAuthState : BotState :=
  { connState with
    isConnected := false, isConnecting := true,
    authUrl := some "https://microsoft.com/link", userCode := some "ABCDEF",
    authMessage := true }

/-- A state in the authenticating phase before any code was scraped: the
operator reacted (so `lastAuthUser` and the Discord auth message exist) but
no auth fields are populated yet. -/
def authPhaseState : BotState :=
  { connState with isConnected := false, isConnecting := true, authMessage := true }

/-- C1 counterexample: with safety monitoring enabled and the session
connected, previous health 6, new health 6 and `autoDisconnectHealth = 6`,
the health check emits nothing at all: the critical auto-disconnect branch
is reachable only when the health strictly decreased on this event, so
`current ≤ autoDisconnectHealth` alone triggers neither the urgent alert
nor the disconnect request, refuting the claim read at previous = 6,
current = 6. -/
theorem checkHealth_no_disconnect_without_damage :
    (checkHealth { connState with currentHealth := 6, lastHealth := 6 } 6 0).2 = [] := by
  decide

/-- C1 amended: whenever safety monitoring is enabled and a client session
is live, a health update whose value is nonzero, strictly below the
previous health and at most `autoDisconnectHealth` makes the health check
emit the urgent critical-health alert and schedule the grace-delayed
disconnect — previous = 20, current = 6, `autoDisconnectHealth = 6` is
exactly the claimed case — while an update to health 0 is swallowed by
the falsy-health guard and emits nothing from any state at all. -/
theorem checkHealth_critical_on_damage (s : BotState) (h : ℚ) (now : Nat) :
    (s.safetyConfig.enabled = true → s.hasBot = true → h ≠ 0 →
      h < s.currentHealth → h ≤ s.safetyConfig.autoDisconnectHealth →
      (checkHealth s h now).2 =
        [.criticalHealthAlert (s.currentHealth - h) h, .scheduleGraceDisconnect 500]) ∧
    checkHealth s 0 now = (s, []) := by
  constructor
  · intro hen hbot hnz hdec hcrit
    simp [checkHealth, hen, hbot, hnz, hdec, hcrit]
  · simp [checkHealth]

/-- C1 witness: the amended theorem applied at the claimed concrete input,
previous = 20, current = 6, `autoDisconnectHealth = 6`, and at the
zero-health guard case. -/
theorem checkHealth_critical_on_damage_witness :
    (checkHealth connState 6 0).2 =
      [.criticalHealthAlert (connState.currentHealth - 6) 6, .scheduleGraceDisconnect 500] ∧
    checkHealth connState 0 0 = (connState, []) :=
  ⟨(checkHealth_critical_on_damage connState 6 0).1 rfl rfl (by decide) (by decide) (by decide),
   (checkHealth_critical_on_damage connState 0 0).2⟩

unseal Rat.mul Rat.sub Rat.add in
/-- C2 counterexample: an untrusted player at distance 30 from the bot,
with `proximityRadius = 50`, `autoDisconnectOnThreat = true` and the
cooldown elapsed, produces only the ordinary proximity alert: no threat
alert and no disconnect request, because the threat test requires the
hardcoded distance of at most 20 blocks, not the configured radius. -/
theorem proximity_distance30_no_threat :
    (checkPlayerProximity connState 100000 "Bot" ⟨0, 0, 0⟩
        [⟨"Griefer", some ⟨30, 0, 0⟩⟩]).2 = [.proximityAlert ["Griefer"]] := by
  decide

unseal Rat.mul Rat.sub Rat.add in
/-- C2 amended: a nearby untrusted player counts as a threat only within
the hardcoded 20 blocks.  Across three consecutive movement events inside
one cooldown window, an untrusted player at distance 30 inside the
50-block radius yields exactly one non-threat proximity alert and no
disconnect request, while an untrusted player at distance 15 yields
exactly one threat alert and exactly one disconnect request. -/
theorem proximity_threat_policy :
    (proximityTrace3 connState 100000 110000 120000 "Bot" ⟨0, 0, 0⟩
        [⟨"Griefer", some ⟨30, 0, 0⟩⟩]).2 = [.proximityAlert ["Griefer"]] ∧
    (proximityTrace3 connState 100000 110000 120000 "Bot" ⟨0, 0, 0⟩
        [⟨"Griefer", some ⟨15, 0, 0⟩⟩]).2 =
      [.threatAlert ["Griefer"], .scheduleGraceDisconnect 1000] := by
  decide

/-- C3: the grace timer that both safety checks schedule clears the join
intent together with quitting the client, so the subsequent `end` event
schedules no connect attempt, and even the authenticating-phase retry
timer it may arm does nothing when it fires. -/
theorem safety_disconnect_no_reconnect (s : BotState) :
    (graceDisconnect s).1.shouldJoin = false ∧
    ((endHandler (graceDisconnect s).1).2.all fun a => !schedulesConnect a) = true ∧
    (authRetryFire (endHandler (graceDisconnect s).1).1).2 = [] := by
  cases hu : s.authUrl <;> cases hc : s.userCode <;>
    simp [graceDisconnect, endHandler, authRetryFire, schedulesConnect, hu, hc]

/-- C4: while the join intent holds and no authentication is pending, each
of the `end`, `error` and `kicked` handlers strictly increases the attempt
counter as long as it is below the cap, and once the counter has reached
the cap each of them forces the join intent to false and emits no action,
in particular no connect attempt. -/
theorem reconnect_attempt_progress (s : BotState)
    (hj : s.shouldJoin = true) (ha : s.authUrl = none) (hc : s.userCode = none) :
    (s.reconnectAttempts < s.maxReconnectAttempts →
      (endHandler s).1.reconnectAttempts = s.reconnectAttempts + 1 ∧
      (errorHandler s).1.reconnectAttempts = s.reconnectAttempts + 1 ∧
      (kickedHandler s).1.reconnectAttempts = s.reconnectAttempts + 1) ∧
    (s.maxReconnectAttempts ≤ s.reconnectAttempts →
      (endHandler s).1.shouldJoin = false ∧ (endHandler s).2 = [] ∧
      (errorHandler s).1.shouldJoin = false ∧ (errorHandler s).2 = [] ∧
      (kickedHandler s).1.shouldJoin = false ∧ (kickedHandler s).2 = []) := by
  constructor
  · intro hlt
    simp [endHandler, errorHandler, kickedHandler, attemptReconnect, hj, ha, hc,
      Nat.not_le.mpr hlt]
  · intro hge
    simp [endHandler, errorHandler, kickedHandler, attemptReconnect, hj, ha, hc, hge]

/-- C4 witness: from the freshly spawned state (counter 0, cap 10000) the
`end` handler moves the counter to 1. -/
theorem reconnect_attempt_progress_witness :
    (endHandler connState).1.reconnectAttempts = connState.reconnectAttempts + 1 :=
  ((reconnect_attempt_progress connState rfl rfl rfl).1 (by decide)).1

/-- C5: a reconnect attempt below the cap schedules the connect timer with
delay `min (baseDelay * attemptCount) 60000` computed from the already
incremented counter; that delay is monotone in the counter, bounded by the
60000 ms cap, and positive whenever the base delay is positive (the
configured base is 15000 ms, so the first retry is not immediate). -/
theorem reconnect_backoff_spec (s : BotState)
    (hj : s.shouldJoin = true) (hc : s.isConnecting = false)
    (hlt : s.reconnectAttempts < s.maxReconnectAttempts) :
    (attemptReconnect s).2 =
      [.scheduleConnect (backoffDelay s.reconnectDelay (s.reconnectAttempts + 1))] ∧
    (∀ m n : Nat, m ≤ n →
      backoffDelay s.reconnectDelay m ≤ backoffDelay s.reconnectDelay n) ∧
    (∀ n : Nat, backoffDelay s.reconnectDelay n ≤ 60000) ∧
    (0 < s.reconnectDelay → 0 < backoffDelay s.reconnectDelay (s.reconnectAttempts + 1)) := by
  refine ⟨?_, ?_, ?_, ?_⟩
  · simp [attemptReconnect, hj, hc, Nat.not_le.mpr hlt]
  · intro m n hmn
    exact min_le_min (Nat.mul_le_mul_left _ hmn) le_rfl
  · intro n
    exact min_le_right _ _
  · intro hb
    exact lt_min (Nat.mul_pos hb (Nat.succ_pos _)) (by norm_num)

/-- C5 witness: from the freshly spawned state the first retry is
scheduled with the positive delay `backoffDelay 15000 1 = 15000`. -/
theorem reconnect_backoff_spec_witness :
    (attemptReconnect connState).2 =
      [.scheduleConnect (backoffDelay connState.reconnectDelay
        (connState.reconnectAttempts + 1))] ∧
    0 < backoffDelay connState.reconnectDelay (connState.reconnectAttempts + 1) :=
  ⟨(reconnect_backoff_spec connState rfl rfl (by decide)).1,
   (reconnect_backoff_spec connState rfl rfl (by decide)).2.2.2 (by decide)⟩

/-- C6 counterexample: a connect request arriving while a connect attempt
is structurally in flight (`isConnecting = true`, not yet connected) after
three reconnect attempts resets the attempt counter to 0, so it is not a
no-op with respect to attemptCount. -/
theorem connect_during_connecting_resets_attempts :
    (postConnect inflightState).1.reconnectAttempts = 0 ∧
    inflightState.reconnectAttempts = 3 := by
  decide

/-- C6 amended: a connect request while already connected is a complete
no-op; a connect request while a connect attempt is structurally in flight
sets the join intent and resets the attempt counter to 0, but creates no
second underlying client session (no session-creation action, no quit). -/
theorem connect_request_spec (s : BotState) :
    (s.isConnected = true → postConnect s = (s, [])) ∧
    (s.isConnected = false → s.isConnecting = true →
      (postConnect s).1 = { s with shouldJoin := true, reconnectAttempts := 0 } ∧
      (postConnect s).2 = []) := by
  constructor
  · intro h
    simp [postConnect, h]
  · intro h1 h2
    simp [postConnect, connectToMinecraft, h1, h2]

/-- C6 witness: the amended theorem applied to the connected state and to
the in-flight reconnecting state. -/
theorem connect_request_spec_witness :
    postConnect connState = (connState, []) ∧ (postConnect inflightState).2 = [] :=
  ⟨(connect_request_spec connState).1 rfl,
   ((connect_request_spec inflightState).2 rfl rfl).2⟩

/-- C7 counterexample: a disconnect request issued while an auth challenge
is pending leaves the stored verification link, the one-time code and the
pending Discord auth message all in place: it does not cancel the pending
auth challenge. -/
theorem disconnect_keeps_auth_state :
    (postDisconnect pendingAuthState).1.authUrl = some "https://microsoft.com/link" ∧
    (postDisconnect pendingAuthState).1.userCode = some "ABCDEF" ∧
    (postDisconnect pendingAuthState).1.authMessage = true := by
  decide

/-- C7 amended: every disconnect request clears the join intent, resets
the attempt counter to 0 and tears down any live client, is idempotent
(a second disconnect changes nothing and quits nothing), but leaves the
stored auth fields exactly as they were. -/
theorem disconnect_spec (s : BotState) :
    (postDisconnect s).1.shouldJoin = false ∧
    (postDisconnect s).1.reconnectAttempts = 0 ∧
    (postDisconnect s).1.hasBot = false ∧
    (postDisconnect s).1.authUrl = s.authUrl ∧
    (postDisconnect s).1.userCode = s.userCode ∧
    (postDisconnect s).1.authMessage = s.authMessage ∧
    postDisconnect (postDisconnect s).1 = ((postDisconnect s).1, []) := by
  simp [postDisconnect]

/-- C8 counterexample: diagnostic text that contains a one-time code but
no URL at all still produces and delivers an auth challenge while the
Discord context is present; the delivered link is the fixed Microsoft
link with the code appended, never a URL extracted from the text, so
delivery is not conditional on both a URL and a code being extracted. -/
theorem auth_delivery_without_url :
    extractAuthDetails authPhaseState "To sign in, use the code ABC123" =
      some ⟨"ABC123", "https://microsoft.com/link?otc=ABC123"⟩ := by
  decide

/-- C8 amended: an auth challenge is delivered exactly when a code is
scraped by the prioritized patterns and both the operator reference and
the pending Discord auth message are present; the delivered URL is always
the fixed Microsoft link with the scraped code composed in as the `otc`
query parameter; a scraped code without the Discord context, or text with
no code match, delivers nothing, and the function changes no supervisor
state in any case. -/
theorem extractAuth_characterization (s : BotState) (msg : String) :
    ((extractAuthDetails s msg).isSome ↔
      (findAuthCode msg).isSome ∧ s.lastAuthUser = true ∧ s.authMessage = true) ∧
    (∀ d : AuthDelivery, extractAuthDetails s msg = some d →
      findAuthCode msg = some d.code ∧ d.url = authUrlFor d.code) := by
  cases hfc : findAuthCode msg with
  | none => simp [extractAuthDetails, hfc]
  | some c =>
    constructor
    · cases hl : s.lastAuthUser <;> cases hm : s.authMessage <;>
        simp [extractAuthDetails, hfc, hl, hm]
    · intro d hd
      unfold extractAuthDetails at hd
      rw [hfc] at hd
      have hd2 : (if (s.lastAuthUser && s.authMessage) = true then
          some (⟨c, authUrlFor c⟩ : AuthDelivery) else none) = some d := hd
      by_cases hg : (s.lastAuthUser && s.authMessage) = true
      · rw [if_pos hg] at hd2
        injection hd2 with hd3
        subst hd3
        exact ⟨congrArg some rfl, rfl⟩
      · rw [if_neg hg] at hd2
        cases hd2

/-- C8 witness: the amended theorem applied in the authenticating phase to
a third phrasing of the prompt, with the code XY7 and its composed link. -/
theorem extractAuth_characterization_witness :
    findAuthCode "please enter code: XY7 now" = some "XY7" ∧
    "https://microsoft.com/link?otc=XY7" = authUrlFor "XY7" :=
  (extractAuth_characterization authPhaseState "please enter code: XY7 now").2
    ⟨"XY7", "https://microsoft.com/link?otc=XY7"⟩ (by decide)

/-- C9 counterexample: when the external deletion of the pending Discord
auth message fails, the login handler leaves the message in place (the
catch path never nulls the field), so the clearing is not unconditional,
and diagnostic text scraped after the login event still delivers an auth
challenge into the stale message. -/
theorem login_delete_failure_keeps_message :
    (loginHandler pendingAuthState false).authMessage = true ∧
    extractAuthDetails (loginHandler pendingAuthState false)
        "please enter code: XY9 now" =
      some ⟨"XY9", "https://microsoft.com/link?otc=XY9"⟩ := by
  decide

/-- C9 amended: the login handler unconditionally clears the scraped auth
link, the one-time code and the sent flag; the pending Discord auth
message is cleared exactly when its deletion succeeds, and in that case
no diagnostic text scraped after the login event delivers anything. -/
theorem login_clears_auth_fields (s : BotState) (msg : String) (deleteOk : Bool) :
    (loginHandler s deleteOk).authUrl = none ∧
    (loginHandler s deleteOk).userCode = none ∧
    (loginHandler s deleteOk).authMessageSent = false ∧
    (deleteOk = true → (loginHandler s deleteOk).authMessage = false ∧
      extractAuthDetails (loginHandler s deleteOk) msg = none) := by
  refine ⟨rfl, rfl, rfl, ?_⟩
  intro hok
  subst hok
  constructor
  · simp [loginHandler]
  · cases hfc : findAuthCode msg <;> simp [extractAuthDetails, loginHandler, hfc]

/-- C9 witness: the amended theorem applied to the pending-auth state with
a successful message deletion and a later text that still carries a code. -/
theorem login_clears_auth_fields_witness :
    (loginHandler pendingAuthState true).authMessage = false ∧
    extractAuthDetails (loginHandler pendingAuthState true)
      "please enter code: XY9 now" = none :=
  (login_clears_auth_fields pendingAuthState "please enter code: XY9 now" true).2.2.2 rfl

/-- Push onto a log of at most 50 entries stays within 50 entries. -/
theorem pushBounded_length_le (log : List BlockBreakEntry) (e : BlockBreakEntry)
    (h : log.length ≤ 50) : (pushBounded log e).length ≤ 50 := by
  unfold pushBounded
  split
  · simp only [List.length_tail, List.length_append, List.length_singleton]
    omega
  · rename_i h2
    simp only [gt_iff_lt, not_lt, List.length_append, List.length_singleton] at h2
    simp only [List.length_append, List.length_singleton]
    omega

/-- Push onto a full log of exactly 50 entries drops the oldest entry. -/
theorem pushBounded_full (log : List BlockBreakEntry) (e : BlockBreakEntry)
    (h : log.length = 50) : pushBounded log e = log.tail ++ [e] := by
  unfold pushBounded
  rw [if_pos]
  · cases log with
    | nil => simp at h
    | cons a as => simp
  · simp [h]

/-- C10: the block-break log is bounded: from any state whose log holds at
most 50 entries, one invocation of the monitor leaves at most 50 entries,
and when the log is exactly full and the break is recorded (monitoring on,
client live, block within the configured radius) the oldest entry is
evicted and the new entry appended at the back. -/
theorem blockBreakLog_bounded (s : BotState) (now : Nat) (botPos blockPos : Pos3)
    (blockName : String) (hlen : s.blockBreakLog.length ≤ 50) :
    (monitorBlockBreak s now botPos blockName blockPos).1.blockBreakLog.length ≤ 50 ∧
    (s.safetyConfig.enabled = true → s.hasBot = true →
      distSq botPos blockPos ≤
        s.safetyConfig.blockBreakRadius * s.safetyConfig.blockBreakRadius →
      s.blockBreakLog.length = 50 →
      (monitorBlockBreak s now botPos blockName blockPos).1.blockBreakLog =
        s.blockBreakLog.tail ++ [⟨now, blockName, blockPos, distSq botPos blockPos⟩]) := by
  constructor
  · simp only [monitorBlockBreak]
    split
    · exact hlen
    · split
      · split
        · exact pushBounded_length_le _ _ hlen
        · exact pushBounded_length_le _ _ hlen
      · exact hlen
  · intro hen hbot hdist h50
    simp only [monitorBlockBreak, hen, hbot]
    rw [if_neg (by simp), if_pos hdist]
    split
    · exact pushBounded_full _ _ h50
    · exact pushBounded_full _ _ h50

/-- C10 witness: a break of a stone block 3 blocks from the bot, recorded
into the empty log of the freshly spawned state, keeps the log within the
bound. -/
theorem blockBreakLog_bounded_witness :
    (monitorBlockBreak connState 5 ⟨0, 0, 0⟩ "stone" ⟨3, 0, 0⟩).1.blockBreakLog.length ≤ 50 :=
  (blockBreakLog_bounded connState 5 ⟨0, 0, 0⟩ ⟨3, 0, 0⟩ "stone" (by decide)).1

end DonutSecurity
